import Mathlib

/-!
Verification of the core logic of the "Odd One Out" memory game
(src/my-react-app/src/App.js).

The JavaScript source is embedded shallowly:

* Randomness is made explicit.  `Array.prototype.sort` called with a random
  comparator always returns some permutation of its input, so each shuffle is
  modelled by a list (or a function) constrained by a `List.Perm` hypothesis.
  The rejection loop that draws `newChangedValue` is modelled by
  `pickChangedValue`, which scans an explicit stream of sampled candidates.
* JavaScript arrays are mutable objects.  `setupOddOneOutRound` copies arrays
  with the spread operator and then sorts one of them in place; to capture
  which arrays share identity we model a tiny heap (`Store`): arrays are
  references into a store of list values, `[...a]` allocates a fresh copy and
  `a.sort(...)` overwrites the referenced cell and returns the same reference.
* The React component state relevant to the game logic is collected in
  `Session`; the event handlers become pure functions `Session → Session`.
-/

namespace MemoryGame

/-- `BASE_SCORE_PER_CORRECT` from App.js line 28. -/
def BASE_SCORE_PER_CORRECT : Nat := 20

/-- `TOTAL_SCORE_TO_WIN` from App.js line 29. -/
def TOTAL_SCORE_TO_WIN : Nat := 100

/-- `NUMBER_POOL_MAX` from App.js line 30. -/
def NUMBER_POOL_MAX : Nat := 100

/-- `allPossibleNumbers` from App.js line 35: the array `[1, 2, ..., 100]`. -/
def allPossibleNumbers : List Nat := (List.range NUMBER_POOL_MAX).map (fun i => i + 1)

/-- `generateUniqueNumbers` (App.js lines 33-38).  The call
`allPossibleNumbers.sort(() => 0.5 - Math.random())` produces some permutation
of `[1..100]`; that permuted list is the explicit argument `shuffledNumbers`
(theorems restrict it by a `List.Perm allPossibleNumbers` hypothesis).
`slice(0, actualCount)` with `actualCount = Math.min(count, NUMBER_POOL_MAX)`
is `List.take (min count NUMBER_POOL_MAX)`. -/
def generateUniqueNumbers (shuffledNumbers : List Nat) (count : Nat) : List Nat :=
  shuffledNumbers.take (min count NUMBER_POOL_MAX)

/-- The do-while loop of App.js lines 54-58: candidates are drawn until one is
neither a member of `initialNumbers` nor equal to the value being replaced.
`samples` is the explicit stream of drawn candidates; the loop returns the
first acceptable one (`none` models the loop never terminating because no
sample qualifies). -/
def pickChangedValue (initialNumbers : List Nat) (originalIndexToChange : Nat)
    (samples : List Nat) : Option Nat :=
  samples.find? (fun v =>
    decide (v ∉ initialNumbers ∧ v ≠ initialNumbers.getD originalIndexToChange 0))

/-- A heap of JavaScript arrays: cell `r` of the store holds the current value
of the array object with reference `r`. -/
def Store : Type := List (List Nat)

/-- Allocate a fresh array holding `v`; returns the new store and the new
reference. -/
def allocArr (s : Store) (v : List Nat) : Store × Nat :=
  (List.append s [v], List.length s)

/-- Read the array referenced by `r`. -/
def readArr (s : Store) (r : Nat) : List Nat :=
  List.getD s r []

/-- Overwrite the array referenced by `r` (in-place mutation). -/
def writeArr (s : Store) (r : Nat) (v : List Nat) : Store :=
  List.set s r v

/-- The component state produced by `setupOddOneOutRound`: the final store and
the references held by the React state setters, plus the computed
`changedTileIndex`. -/
structure SetupState where
  store : Store
  originalGridRef : Nat
  preparedRecallRef : Nat
  currentGridRef : Nat
  changedTileIndex : Nat

/-- The body of `setupOddOneOutRound` (App.js lines 41-75) after the
rejection loop, over the array heap.  Random inputs are explicit:
`shuffledPool` is the shuffled `[1..100]` used by `generateUniqueNumbers`,
`originalIndexToChange` is the drawn index (line 51), `newChangedValue` is the
value the rejection loop settled on (lines 54-58), and `sortShuffle` is the
permutation realised by the in-place `sort` of line 64.  Step by step:
`initialNumbers` is allocated by `generateUniqueNumbers`;
`setOriginalGridNumbers([...initialNumbers])` allocates a copy;
`finalRecallNumbers = [...initialNumbers]` allocates another copy, which is
then mutated at `originalIndexToChange` and sorted in place — `sort` returns
the SAME array object, so `preparedRecallRef` aliases `finalRecallNumbers`;
finally `setCurrentGridNumbers([...initialNumbers])` allocates a last copy. -/
def setupCore (shuffledPool : List Nat) (count : Nat)
    (originalIndexToChange : Nat) (newChangedValue : Nat)
    (sortShuffle : List Nat → List Nat) : SetupState :=
  let initialNumbers := generateUniqueNumbers shuffledPool count
  let p1 := allocArr [] initialNumbers
  let initialRef := p1.2
  let p2 := allocArr p1.1 (readArr p1.1 initialRef)
  let originalRef := p2.2
  let p3 := allocArr p2.1 (readArr p2.1 initialRef)
  let finalRef := p3.2
  let s4 := writeArr p3.1 finalRef
    ((readArr p3.1 finalRef).set originalIndexToChange newChangedValue)
  let s5 := writeArr s4 finalRef (sortShuffle (readArr s4 finalRef))
  let changedIdx := (readArr s5 finalRef).indexOf newChangedValue
  let p6 := allocArr s5 (readArr s5 initialRef)
  { store := p6.1, originalGridRef := originalRef, preparedRecallRef := finalRef,
    currentGridRef := p6.2, changedTileIndex := changedIdx }

/-- `setupOddOneOutRound` proper: the rejection loop feeds `setupCore` with
its result, and a loop that would never terminate yields `none`. -/
def setupOddOneOutRound (shuffledPool : List Nat) (count : Nat)
    (originalIndexToChange : Nat) (samples : List Nat)
    (sortShuffle : List Nat → List Nat) : Option SetupState :=
  (pickChangedValue (generateUniqueNumbers shuffledPool count)
      originalIndexToChange samples).map
    (fun newChangedValue =>
      setupCore shuffledPool count originalIndexToChange newChangedValue sortShuffle)

/-- The `originalGridNumbers` React state after setup. -/
def SetupState.originalGridNumbers (st : SetupState) : List Nat :=
  readArr st.store st.originalGridRef

/-- The `preparedRecallNumbers` React state after setup. -/
def SetupState.preparedRecallNumbers (st : SetupState) : List Nat :=
  readArr st.store st.preparedRecallRef

/-- The `currentGridNumbers` React state after setup. -/
def SetupState.currentGridNumbers (st : SetupState) : List Nat :=
  readArr st.store st.currentGridRef

/-- The machine states of App.js line 5. -/
inductive GameState where
  | start
  | difficulty
  | number_selection
  | memorize_original
  | odd_one_out_recall
  | round_win
  | overall_win
  | game_over
deriving DecidableEq

/-- The React component state touched by the submit / home handlers. -/
structure Session where
  gameState : GameState
  selectedTileIndex : Option Nat
  changedTileIndex : Option Nat
  totalScore : Nat
  roundScore : Nat
  currentGridNumbers : List Nat
  feedbackMessage : String
  modalMessage : String
  showModal : Bool
deriving DecidableEq

/-- The value displayed for `currentGridNumbers[changedTileIndex]` in the
game-over messages (App.js lines 180-181); a `null` index reads as the string
for an undefined element, mirroring JavaScript. -/
def Session.changedDisplay (s : Session) : String :=
  match s.changedTileIndex with
  | some i => toString (s.currentGridNumbers.getD i 0)
  | none => "undefined"

/-- `handleSubmitRecall` (App.js lines 149-185).  Guard: a `null` selection
only updates the feedback message.  Otherwise the selection is compared with
`changedTileIndex`; a match awards `BASE_SCORE_PER_CORRECT` and moves to
`overall_win` or `round_win` depending on the win threshold, a mismatch awards
nothing and moves to `game_over`.  The handler never inspects `gameState`. -/
def handleSubmitRecall (s : Session) : Session :=
  match s.selectedTileIndex with
  | none => { s with feedbackMessage := "Please select a tile!" }
  | some sel =>
    if some sel = s.changedTileIndex then
      let newTotal := s.totalScore + BASE_SCORE_PER_CORRECT
      if newTotal ≥ TOTAL_SCORE_TO_WIN then
        { s with roundScore := BASE_SCORE_PER_CORRECT
                 totalScore := newTotal
                 gameState := GameState.overall_win
                 feedbackMessage := "You are the CHAMPION!"
                 modalMessage := "You are the CHAMPION! Final Score: " ++ toString newTotal
                 showModal := true }
      else
        { s with roundScore := BASE_SCORE_PER_CORRECT
                 totalScore := newTotal
                 gameState := GameState.round_win
                 feedbackMessage := "Round Complete!"
                 modalMessage := "Round Complete! Total Score: " ++ toString newTotal ++ "."
                 showModal := true }
    else
      { s with roundScore := 0
               gameState := GameState.game_over
               feedbackMessage := "Wrong! The changed number was: " ++ s.changedDisplay
               modalMessage := "Game Over! The changed tile was: " ++ s.changedDisplay
               showModal := true }

/-- The `homeAction` of App.js line 155: `setGameState('start');
setShowModal(false); setSelectedTileIndex(null); setTotalScore(0)`. -/
def homeAction (s : Session) : Session :=
  { s with gameState := GameState.start
           showModal := false
           selectedTileIndex := none
           totalScore := 0 }

/-- The in-page Home / New Game buttons (App.js lines 384 and 391):
`setGameState('start'); setSelectedTileIndex(null); setTotalScore(0)`. -/
def homeButtonAction (s : Session) : Session :=
  { s with gameState := GameState.start
           selectedTileIndex := none
           totalScore := 0 }

theorem length_allPossibleNumbers : allPossibleNumbers.length = 100 := by
  simp [allPossibleNumbers, NUMBER_POOL_MAX]

theorem mem_allPossibleNumbers {x : Nat} : x ∈ allPossibleNumbers ↔ 1 ≤ x ∧ x ≤ 100 := by
  simp only [allPossibleNumbers, NUMBER_POOL_MAX, List.mem_map, List.mem_range]
  constructor
  · rintro ⟨i, hi, rfl⟩
    omega
  · rintro ⟨h1, h2⟩
    exact ⟨x - 1, by omega, by omega⟩

theorem nodup_allPossibleNumbers : allPossibleNumbers.Nodup :=
  List.Nodup.map (fun a b h => by omega) (List.nodup_range _)

/-- Claim C5: the number-pool draw returns pairwise-distinct integers in
`[1, 100]`; the length is `count` when `count ≤ 100` and is capped at 100
when `count > 100` (no error is raised — the function is total). -/
theorem generateUniqueNumbers_draw (shuffled : List Nat) (count : Nat)
    (hperm : shuffled.Perm allPossibleNumbers) :
    (generateUniqueNumbers shuffled count).Nodup ∧
    (∀ x ∈ generateUniqueNumbers shuffled count, 1 ≤ x ∧ x ≤ 100) ∧
    (count ≤ 100 → (generateUniqueNumbers shuffled count).length = count) ∧
    (100 < count → (generateUniqueNumbers shuffled count).length = 100) := by
  have hnd : shuffled.Nodup := hperm.nodup_iff.mpr nodup_allPossibleNumbers
  have hlen : shuffled.length = 100 := by
    rw [hperm.length_eq, length_allPossibleNumbers]
  refine ⟨?_, ?_, ?_, ?_⟩
  · exact List.Nodup.sublist (List.take_sublist _ _) hnd
  · intro x hx
    exact mem_allPossibleNumbers.mp (hperm.mem_iff.mp (List.mem_of_mem_take hx))
  · intro h
    simp [generateUniqueNumbers, NUMBER_POOL_MAX, hlen]
    omega
  · intro h
    simp [generateUniqueNumbers, NUMBER_POOL_MAX, hlen]
    omega

/-- Witness for C5: the identity shuffle with a draw of 5 numbers. -/
theorem generateUniqueNumbers_draw_witness :
    (generateUniqueNumbers allPossibleNumbers 5).Nodup ∧
    (∀ x ∈ generateUniqueNumbers allPossibleNumbers 5, 1 ≤ x ∧ x ≤ 100) ∧
    (5 ≤ 100 → (generateUniqueNumbers allPossibleNumbers 5).length = 5) ∧
    (100 < 5 → (generateUniqueNumbers allPossibleNumbers 5).length = 100) :=
  generateUniqueNumbers_draw allPossibleNumbers 5 (List.Perm.refl _)

/-- Claim C9: round setup never mutates the stored original sequence.  The
substitution and the in-place sort happen on the array allocated by
`finalRecallNumbers = [...initialNumbers]`, a different heap cell from the one
stored by `setOriginalGridNumbers([...initialNumbers])`, so after setup both
the original grid numbers and the current grid numbers still equal the
sequence returned by the number draw, element for element; only the prepared
recall array carries the substitution and the shuffle. -/
theorem setupCore_preserves_original (pool : List Nat) (count i v : Nat)
    (sh : List Nat → List Nat) :
    (setupCore pool count i v sh).originalGridNumbers = generateUniqueNumbers pool count ∧
    (setupCore pool count i v sh).currentGridNumbers = generateUniqueNumbers pool count ∧
    (setupCore pool count i v sh).preparedRecallNumbers =
      sh ((generateUniqueNumbers pool count).set i v) := by
  refine ⟨rfl, rfl, rfl⟩

/-- The rejection loop only returns values that pass its guard: the result is
not a member of `initialNumbers` and differs from the value being replaced. -/
theorem pickChangedValue_spec {initialNumbers : List Nat} {i : Nat}
    {samples : List Nat} {v : Nat}
    (h : pickChangedValue initialNumbers i samples = some v) :
    v ∉ initialNumbers ∧ v ≠ initialNumbers.getD i 0 := by
  have h' := h
  simp only [pickChangedValue] at h'
  have hp : (fun x => decide (x ∉ initialNumbers ∧ x ≠ initialNumbers.getD i 0)) v = true :=
    @List.find?_some Nat
      (fun x => decide (x ∉ initialNumbers ∧ x ≠ initialNumbers.getD i 0)) v samples h'
  exact of_decide_eq_true hp

/-- Claim C2: for every round built by setup, `changedValue` is not a member
of `original` and differs from the value it replaced; the recall layout
contains exactly one value absent from `original`; and `changedTileIndex` is a
valid position in the recall layout holding `changedValue`. -/
theorem setup_changed_value_odd_one_out (pool : List Nat) (count i : Nat)
    (samples : List Nat) (sh : List Nat → List Nat) (v : Nat)
    (hsh : ∀ l, (sh l).Perm l)
    (hi : i < (generateUniqueNumbers pool count).length)
    (hpick : pickChangedValue (generateUniqueNumbers pool count) i samples = some v) :
    v ∉ generateUniqueNumbers pool count ∧
    v ≠ (generateUniqueNumbers pool count).getD i 0 ∧
    (setupCore pool count i v sh).preparedRecallNumbers.countP
      (fun x => decide (x ∉ generateUniqueNumbers pool count)) = 1 ∧
    (setupCore pool count i v sh).changedTileIndex <
      (setupCore pool count i v sh).preparedRecallNumbers.length ∧
    (setupCore pool count i v sh).preparedRecallNumbers.getD
      (setupCore pool count i v sh).changedTileIndex 0 = v := by
  obtain ⟨hv, hvne⟩ := pickChangedValue_spec hpick
  have hprep : (setupCore pool count i v sh).preparedRecallNumbers =
      sh ((generateUniqueNumbers pool count).set i v) := rfl
  have hperm : (sh ((generateUniqueNumbers pool count).set i v)).Perm
      ((generateUniqueNumbers pool count).set i v) := hsh _
  have hdecomp : (generateUniqueNumbers pool count).set i v =
      (generateUniqueNumbers pool count).take i ++
        v :: (generateUniqueNumbers pool count).drop (i + 1) :=
    List.set_eq_take_cons_drop v hi
  have hvmem : v ∈ sh ((generateUniqueNumbers pool count).set i v) := by
    rw [hperm.mem_iff, hdecomp]
    exact List.mem_append_right _ (List.mem_cons_self _ _)
  have hidx : (setupCore pool count i v sh).changedTileIndex =
      (sh ((generateUniqueNumbers pool count).set i v)).indexOf v := rfl
  have hlt : (sh ((generateUniqueNumbers pool count).set i v)).indexOf v <
      (sh ((generateUniqueNumbers pool count).set i v)).length :=
    List.indexOf_lt_length.mpr hvmem
  refine ⟨hv, hvne, ?_, ?_, ?_⟩
  · rw [hprep, hperm.countP_eq, hdecomp]
    rw [List.countP_append]
    have htake : ((generateUniqueNumbers pool count).take i).countP
        (fun x => decide (x ∉ generateUniqueNumbers pool count)) = 0 :=
      List.countP_eq_zero.mpr (fun a ha hpa =>
        (of_decide_eq_true hpa) (List.mem_of_mem_take ha))
    have hdrop : ((generateUniqueNumbers pool count).drop (i + 1)).countP
        (fun x => decide (x ∉ generateUniqueNumbers pool count)) = 0 :=
      List.countP_eq_zero.mpr (fun a ha hpa =>
        (of_decide_eq_true hpa) (List.mem_of_mem_drop ha))
    rw [htake, List.countP_cons_of_pos _ _ (by simpa using hv), hdrop]
  · rw [hprep, hidx]
    exact hlt
  · rw [hprep, hidx, List.getD_eq_getElem _ 0 hlt, List.getElem_indexOf hlt]

/-- Witness for C2: a concrete round — pool `[1..100]`, four tiles, index 2
replaced, candidate stream `[55]`, identity shuffle. -/
theorem setup_changed_value_odd_one_out_witness :
    55 ∉ generateUniqueNumbers allPossibleNumbers 4 ∧
    55 ≠ (generateUniqueNumbers allPossibleNumbers 4).getD 2 0 ∧
    (setupCore allPossibleNumbers 4 2 55 id).preparedRecallNumbers.countP
      (fun x => decide (x ∉ generateUniqueNumbers allPossibleNumbers 4)) = 1 ∧
    (setupCore allPossibleNumbers 4 2 55 id).changedTileIndex <
      (setupCore allPossibleNumbers 4 2 55 id).preparedRecallNumbers.length ∧
    (setupCore allPossibleNumbers 4 2 55 id).preparedRecallNumbers.getD
      (setupCore allPossibleNumbers 4 2 55 id).changedTileIndex 0 = 55 :=
  setup_changed_value_odd_one_out allPossibleNumbers 4 2 [55] id 55
    (fun l => List.Perm.refl l) (by decide) (by decide)

/-- Replacing position `i` of a list and putting back the replaced element
yields the same multiset as adding the new element to the original list. -/
theorem coe_set_add_getD (l : List Nat) (i v : Nat) (hi : i < l.length) :
    ((l.set i v : List Nat) : Multiset Nat) + {l.getD i 0} =
      (l : Multiset Nat) + {v} := by
  rw [List.set_eq_take_cons_drop v hi, List.getD_eq_getElem l 0 hi]
  conv_rhs => rw [← List.take_append_drop i l, ← List.getElem_cons_drop l i hi]
  rw [← Multiset.coe_add, ← Multiset.coe_add, ← Multiset.cons_coe, ← Multiset.cons_coe]
  rw [← Multiset.singleton_add, ← Multiset.singleton_add]
  simp [add_comm, add_left_comm, add_assoc]

/-- Claim C3: the recall layout has the same length as `original`, and its
multiset of values is that of `original` with exactly the element at
`originalIndexToChange` replaced by `changedValue` (stated as the exchange
equation `recall + [replaced] = original + [changedValue]` over multisets). -/
theorem setup_recall_is_one_substitution (pool : List Nat) (count i v : Nat)
    (sh : List Nat → List Nat)
    (hsh : ∀ l, (sh l).Perm l)
    (hi : i < (generateUniqueNumbers pool count).length) :
    (setupCore pool count i v sh).preparedRecallNumbers.length =
      (setupCore pool count i v sh).originalGridNumbers.length ∧
    ((setupCore pool count i v sh).preparedRecallNumbers : Multiset Nat) +
        {(setupCore pool count i v sh).originalGridNumbers.getD i 0} =
      ((setupCore pool count i v sh).originalGridNumbers : Multiset Nat) + {v} := by
  have horig : (setupCore pool count i v sh).originalGridNumbers =
      generateUniqueNumbers pool count := rfl
  have hprep : (setupCore pool count i v sh).preparedRecallNumbers =
      sh ((generateUniqueNumbers pool count).set i v) := rfl
  have hperm : (sh ((generateUniqueNumbers pool count).set i v)).Perm
      ((generateUniqueNumbers pool count).set i v) := hsh _
  constructor
  · rw [horig, hprep, hperm.length_eq, List.length_set]
  · rw [horig, hprep, Multiset.coe_eq_coe.mpr hperm]
    exact coe_set_add_getD _ i v hi

/-- Witness for C3: the same concrete round as for C2, checked through the
theorem at pool `[1..100]`, four tiles, index 2, new value 55. -/
theorem setup_recall_is_one_substitution_witness :
    (setupCore allPossibleNumbers 4 2 55 id).preparedRecallNumbers.length =
      (setupCore allPossibleNumbers 4 2 55 id).originalGridNumbers.length ∧
    ((setupCore allPossibleNumbers 4 2 55 id).preparedRecallNumbers : Multiset Nat) +
        {(setupCore allPossibleNumbers 4 2 55 id).originalGridNumbers.getD 2 0} =
      ((setupCore allPossibleNumbers 4 2 55 id).originalGridNumbers : Multiset Nat) + {55} :=
  setup_recall_is_one_substitution allPossibleNumbers 4 2 55 id
    (fun l => List.Perm.refl l) (by decide)

/-- Claim C1: in the recall state, submitting a non-null selection equal to
the round's changed index increases `totalScore` by exactly 20 (never
decreasing it) and transitions to `overall_win` when the updated total is at
least 100, else to `round_win`. -/
theorem submit_correct_selection_scores (s : Session) (sel : Nat)
    (hstate : s.gameState = GameState.odd_one_out_recall)
    (hsel : s.selectedTileIndex = some sel)
    (hhit : s.changedTileIndex = some sel) :
    (handleSubmitRecall s).totalScore = s.totalScore + 20 ∧
    s.totalScore ≤ (handleSubmitRecall s).totalScore ∧
    ((handleSubmitRecall s).totalScore ≥ 100 →
      (handleSubmitRecall s).gameState = GameState.overall_win) ∧
    ((handleSubmitRecall s).totalScore < 100 →
      (handleSubmitRecall s).gameState = GameState.round_win) := by
  simp only [handleSubmitRecall, hsel, hhit, BASE_SCORE_PER_CORRECT, TOTAL_SCORE_TO_WIN]
  by_cases hwin : s.totalScore + 20 ≥ 100
  · simp [hwin]
  · simp [hwin]

/-- Witness for C1: a concrete recall-state session whose selection hits the
changed tile. -/
theorem submit_correct_selection_scores_witness :
    (handleSubmitRecall
      { gameState := GameState.odd_one_out_recall, selectedTileIndex := some 2,
        changedTileIndex := some 2, totalScore := 40, roundScore := 0,
        currentGridNumbers := [3, 17, 55, 88], feedbackMessage := "",
        modalMessage := "", showModal := false }).totalScore = 40 + 20 ∧
    40 ≤ (handleSubmitRecall
      { gameState := GameState.odd_one_out_recall, selectedTileIndex := some 2,
        changedTileIndex := some 2, totalScore := 40, roundScore := 0,
        currentGridNumbers := [3, 17, 55, 88], feedbackMessage := "",
        modalMessage := "", showModal := false }).totalScore ∧
    ((handleSubmitRecall
      { gameState := GameState.odd_one_out_recall, selectedTileIndex := some 2,
        changedTileIndex := some 2, totalScore := 40, roundScore := 0,
        currentGridNumbers := [3, 17, 55, 88], feedbackMessage := "",
        modalMessage := "", showModal := false }).totalScore ≥ 100 →
      (handleSubmitRecall
      { gameState := GameState.odd_one_out_recall, selectedTileIndex := some 2,
        changedTileIndex := some 2, totalScore := 40, roundScore := 0,
        currentGridNumbers := [3, 17, 55, 88], feedbackMessage := "",
        modalMessage := "", showModal := false }).gameState = GameState.overall_win) ∧
    ((handleSubmitRecall
      { gameState := GameState.odd_one_out_recall, selectedTileIndex := some 2,
        changedTileIndex := some 2, totalScore := 40, roundScore := 0,
        currentGridNumbers := [3, 17, 55, 88], feedbackMessage := "",
        modalMessage := "", showModal := false }).totalScore < 100 →
      (handleSubmitRecall
      { gameState := GameState.odd_one_out_recall, selectedTileIndex := some 2,
        changedTileIndex := some 2, totalScore := 40, roundScore := 0,
        currentGridNumbers := [3, 17, 55, 88], feedbackMessage := "",
        modalMessage := "", showModal := false }).gameState = GameState.round_win) :=
  submit_correct_selection_scores _ 2 rfl rfl rfl

/-- Claim C4: in the recall state, submitting a non-null selection different
from the changed index moves to `game_over`, sets the round score to 0 and
leaves `totalScore` exactly as it was. -/
theorem submit_wrong_selection_game_over (s : Session) (sel : Nat)
    (hstate : s.gameState = GameState.odd_one_out_recall)
    (hsel : s.selectedTileIndex = some sel)
    (hmiss : s.changedTileIndex ≠ some sel) :
    (handleSubmitRecall s).gameState = GameState.game_over ∧
    (handleSubmitRecall s).roundScore = 0 ∧
    (handleSubmitRecall s).totalScore = s.totalScore := by
  have hne : ¬ (some sel = s.changedTileIndex) := fun h => hmiss h.symm
  simp [handleSubmitRecall, hsel, hne]

/-- Witness for C4: a concrete recall-state session whose selection misses the
changed tile. -/
theorem submit_wrong_selection_game_over_witness :
    (handleSubmitRecall
      { gameState := GameState.odd_one_out_recall, selectedTileIndex := some 0,
        changedTileIndex := some 2, totalScore := 40, roundScore := 0,
        currentGridNumbers := [3, 17, 55, 88], feedbackMessage := "",
        modalMessage := "", showModal := false }).gameState = GameState.game_over ∧
    (handleSubmitRecall
      { gameState := GameState.odd_one_out_recall, selectedTileIndex := some 0,
        changedTileIndex := some 2, totalScore := 40, roundScore := 0,
        currentGridNumbers := [3, 17, 55, 88], feedbackMessage := "",
        modalMessage := "", showModal := false }).roundScore = 0 ∧
    (handleSubmitRecall
      { gameState := GameState.odd_one_out_recall, selectedTileIndex := some 0,
        changedTileIndex := some 2, totalScore := 40, roundScore := 0,
        currentGridNumbers := [3, 17, 55, 88], feedbackMessage := "",
        modalMessage := "", showModal := false }).totalScore = 40 :=
  submit_wrong_selection_game_over _ 0 rfl rfl (by decide)

/-- Claim C6: submitting with a `null` selection only updates the feedback
message; every other field of the session is unchanged and no exception is
raised (the handler is a total function). -/
theorem submit_null_selection_rejected (s : Session)
    (hsel : s.selectedTileIndex = none) :
    handleSubmitRecall s = { s with feedbackMessage := "Please select a tile!" } := by
  simp [handleSubmitRecall, hsel]

/-- Witness for C6: a concrete session with no selection. -/
theorem submit_null_selection_rejected_witness :
    handleSubmitRecall
      { gameState := GameState.odd_one_out_recall, selectedTileIndex := none,
        changedTileIndex := some 2, totalScore := 40, roundScore := 20,
        currentGridNumbers := [3, 17, 55, 88], feedbackMessage := "",
        modalMessage := "m", showModal := true } =
      { gameState := GameState.odd_one_out_recall, selectedTileIndex := none,
        changedTileIndex := some 2, totalScore := 40, roundScore := 20,
        currentGridNumbers := [3, 17, 55, 88],
        feedbackMessage := "Please select a tile!",
        modalMessage := "m", showModal := true } :=
  submit_null_selection_rejected _ rfl

/-- Claim C7: from any session, the home action (both the modal `homeAction`
and the in-page Home / New Game buttons) sets the state to `start`, clears the
selection and resets `totalScore` to 0, regardless of prior score or
selection. -/
theorem home_resets_session (s : Session) :
    (homeAction s).gameState = GameState.start ∧
    (homeAction s).selectedTileIndex = none ∧
    (homeAction s).totalScore = 0 ∧
    (homeButtonAction s).gameState = GameState.start ∧
    (homeButtonAction s).selectedTileIndex = none ∧
    (homeButtonAction s).totalScore = 0 := by
  simp [homeAction, homeButtonAction]

/-- Claim C10: `handleSubmitRecall` never inspects `gameState` — its only
guard is a non-null selection.  With any selection recorded, the handler
behaves identically in every state (including `round_win`, `overall_win` and
`game_over`), in particular awarding a further 20 points whenever the stale
selection equals the changed index. -/
theorem submit_ignores_game_state (s : Session) (g : GameState) (sel : Nat)
    (hsel : s.selectedTileIndex = some sel) :
    handleSubmitRecall { s with gameState := g } =
      handleSubmitRecall { s with gameState := GameState.odd_one_out_recall } ∧
    (s.changedTileIndex = some sel →
      (handleSubmitRecall { s with gameState := g }).totalScore = s.totalScore + 20) := by
  constructor
  · simp only [handleSubmitRecall, hsel]
    by_cases hhit : some sel = s.changedTileIndex
    · simp [hhit]
    · simp [hhit, Session.changedDisplay]
  · intro hhit
    simp only [handleSubmitRecall, hsel, hhit, BASE_SCORE_PER_CORRECT, TOTAL_SCORE_TO_WIN]
    by_cases hwin : s.totalScore + 20 ≥ 100
    · simp [hwin]
    · simp [hwin]

/-- Witness for C10: submitting from the `round_win` state with the stale
selection still matching the changed tile re-awards 20 points. -/
theorem submit_ignores_game_state_witness :
    handleSubmitRecall
      { gameState := GameState.round_win, selectedTileIndex := some 2,
        changedTileIndex := some 2, totalScore := 20, roundScore := 20,
        currentGridNumbers := [3, 17, 55, 88], feedbackMessage := "",
        modalMessage := "", showModal := true } =
      handleSubmitRecall
      { gameState := GameState.odd_one_out_recall, selectedTileIndex := some 2,
        changedTileIndex := some 2, totalScore := 20, roundScore := 20,
        currentGridNumbers := [3, 17, 55, 88], feedbackMessage := "",
        modalMessage := "", showModal := true } ∧
    ((some 2 : Option Nat) = some 2 →
      (handleSubmitRecall
      { gameState := GameState.round_win, selectedTileIndex := some 2,
        changedTileIndex := some 2, totalScore := 20, roundScore := 20,
        currentGridNumbers := [3, 17, 55, 88], feedbackMessage := "",
        modalMessage := "", showModal := true }).totalScore = 20 + 20) :=
  submit_ignores_game_state
    { gameState := GameState.round_win, selectedTileIndex := some 2,
      changedTileIndex := some 2, totalScore := 20, roundScore := 20,
      currentGridNumbers := [3, 17, 55, 88], feedbackMessage := "",
      modalMessage := "", showModal := true } GameState.round_win 2 rfl

end MemoryGame
